import Mathlib

/-!
Verification of the camera selection model (camera_select.py).

The development embeds the classes Lens, Sensor and Camera and the methods
mount, unmount, focus, project and resolution_on_ground_per_10cm over the
real numbers.  Matrix-valued state (the 3x4 pose and the 2x3 intrinsic
matrix K) is kept as Mathlib matrices; Python float arithmetic is modelled
by real arithmetic, with Lean's total division (x / 0 = 0) standing in at
the points where the Python code would divide by zero.
-/

namespace CamSel

noncomputable section

/-- Lens parameters (class Lens): focal length in mm and the f-number. -/
structure Lens where
  focal_mm : ℝ
  f_number : ℝ

/-- Sensor parameters (class Sensor): physical size in mm, size in pixels. -/
structure Sensor where
  width_mm : ℝ
  height_mm : ℝ
  width_px : ℝ
  height_px : ℝ

/-- Pixel density along x, as set in Sensor.__init__. -/
def Sensor.ratio_focal_x (s : Sensor) : ℝ := s.width_px / s.width_mm

/-- Pixel density along y, as set in Sensor.__init__. -/
def Sensor.ratio_focal_y (s : Sensor) : ℝ := s.height_px / s.height_mm

/-- Sensor.diagonal_mm. -/
def Sensor.diagonal_mm (s : Sensor) : ℝ := Real.sqrt (s.width_mm ^ 2 + s.height_mm ^ 2)

/-- The mutable state of class Camera: the fields assigned by __init__,
mount and focus.  The pose is the 3x4 extrinsic matrix, K the 2x3
intrinsic matrix built by focus. -/
structure Camera where
  name : String
  sensor : Sensor
  lens : Lens
  pose : Matrix (Fin 3) (Fin 4) ℝ
  pitch : ℝ
  center_view_distance : ℝ
  near_view_limit : ℝ
  far_view_limit : ℝ
  near_depth : ℝ
  far_depth : ℝ
  horizontal_half_aov : ℝ
  vertical_half_aov : ℝ
  object_distance : ℝ
  hyperfocal : ℝ
  extension : ℝ
  K : Matrix (Fin 2) (Fin 3) ℝ

/-- Camera.equivalent_focal_mm: 35mm-equivalent focal length. -/
def Camera.equivalent_focal_mm (c : Camera) : ℝ :=
  c.lens.focal_mm / c.sensor.diagonal_mm * 43.27

/-- Camera.circle_of_confusion with the default coc_35mm = 0.030. -/
def Camera.circle_of_confusion (c : Camera) : ℝ :=
  0.030 / (c.equivalent_focal_mm / c.lens.focal_mm)

/-- Camera.focus: recomputes the depth-of-field state, the half
angles of view and the intrinsic matrix K from the object distance. -/
def Camera.focus (c : Camera) (object_distance : ℝ) : Camera :=
  let f := c.lens.focal_mm
  let hyperfocal := f ^ 2 / c.lens.f_number / c.circle_of_confusion + f
  let near_depth := object_distance * (hyperfocal - f) / (hyperfocal + object_distance - 2 * f)
  let far_depth0 := object_distance * (hyperfocal - f) / (hyperfocal - object_distance)
  let far_depth := if far_depth0 < 0 then 1e6 else far_depth0
  let extension := f ^ 2 / (object_distance - f)
  let image_distance_mm := f + extension
  { c with
    near_depth := near_depth
    far_depth := far_depth
    horizontal_half_aov := Real.arctan (c.sensor.width_mm / 2 / image_distance_mm)
    vertical_half_aov := Real.arctan (c.sensor.height_mm / 2 / image_distance_mm)
    object_distance := object_distance
    hyperfocal := hyperfocal
    extension := extension
    K := !![image_distance_mm * c.sensor.ratio_focal_x, 0, c.sensor.width_px / 2;
            0, image_distance_mm * c.sensor.ratio_focal_y, c.sensor.height_px / 2] }

/-- The local function ground_distance_at defined inside Camera.mount:
height / tan(-angle) for a ray pointing down by more than 0.001 rad,
the 1e6 mm sentinel otherwise. -/
def groundDistanceAt (height_mm angle : ℝ) : ℝ :=
  if angle < -0.001 then height_mm / Real.tan (-angle) else 1e6

/-- Camera.mount: stores the pose and pitch, focuses at the ground
distance straight ahead, then derives the near/far view limits from the
just-recomputed vertical half angle of view. -/
def Camera.mount (c : Camera) (pitch height_mm : ℝ) : Camera :=
  let p := pitch / 180 * Real.pi
  let translate : Matrix (Fin 4) (Fin 4) ℝ :=
    !![1, 0, 0, 0; 0, 1, 0, height_mm; 0, 0, 1, 0; 0, 0, 0, 1]
  let rotate : Matrix (Fin 3) (Fin 4) ℝ :=
    !![1, 0, 0, 0; 0, Real.cos p, Real.sin p, 0; 0, -Real.sin p, Real.cos p, 0]
  let c1 := { c with
    pose := rotate * translate
    pitch := p
    center_view_distance := groundDistanceAt height_mm p }
  let c2 := c1.focus c1.center_view_distance
  { c2 with
    near_view_limit := groundDistanceAt height_mm (p - c2.vertical_half_aov)
    far_view_limit := groundDistanceAt height_mm (p + c2.vertical_half_aov) }

/-- Camera.unmount: mount(0, 0). -/
def Camera.unmount (c : Camera) : Camera := c.mount 0 0

/-- Camera.project: transform the homogeneous world point by the pose,
divide by the camera-space depth, apply K.  The 4x1 shape asserted by the
Python code is enforced by the type. -/
def Camera.project (c : Camera) (point_world : Matrix (Fin 4) (Fin 1) ℝ) :
    Matrix (Fin 2) (Fin 1) ℝ :=
  let point_camera := c.pose * point_world
  let point_camera_n := (point_camera 2 0)⁻¹ • point_camera
  c.K * point_camera_n

/-- Camera.resolution_on_ground_per_10cm: drop in projected pixel row
between ground points at distance g and g + 100 mm. -/
def Camera.resolution_on_ground_per_10cm (c : Camera) (ground_distance : ℝ) : ℝ :=
  (c.project !![0; 0; ground_distance; 1]) 1 0
    - (c.project !![0; 0; ground_distance + 100; 1]) 1 0

/-- A camera record before __init__ has run: the derived fields hold
arbitrary (zero) values that __init__ immediately overwrites. -/
def Camera.base (name : String) (sensor : Sensor) (lens : Lens) : Camera :=
  ⟨name, sensor, lens, 0, 0, 0, 0, 0, 0, 0, 0, 0, 0, 0, 0, 0⟩

/-- Camera.__init__: store name/sensor/lens, run unmount() then focus(1e6). -/
def Camera.init (name : String) (sensor : Sensor) (lens : Lens) : Camera :=
  ((Camera.base name sensor lens).unmount).focus 1e6

/-- The error kinds named by the specification (section 7).  The Python
source defines no such errors; they are used to state the spec-side
checked variants against which the code is compared. -/
inductive CamError where
  | DegenerateProjection
  | InvalidFocusDistance
deriving DecidableEq

/-- Follows the spec's words (sections 4.4 and 7), for comparison with
Camera.project: require the fourth homogeneous coordinate to equal 1 and
the camera-space depth to be nonzero, failing with DegenerateProjection
otherwise. -/
def Camera.projectSpec (c : Camera) (w : Matrix (Fin 4) (Fin 1) ℝ) :
    Except CamError (Matrix (Fin 2) (Fin 1) ℝ) :=
  if w 3 0 = 1 ∧ (c.pose * w) 2 0 ≠ 0 then .ok (c.project w)
  else .error .DegenerateProjection

/-- Follows the spec's words (sections 4.3 and 7), for comparison with
Camera.focus: reject an object distance at or below the focal length with
InvalidFocusDistance. -/
def Camera.focusSpec (c : Camera) (d : ℝ) : Except CamError Camera :=
  if d ≤ c.lens.focal_mm then .error .InvalidFocusDistance else .ok (c.focus d)

/-- Name used for the concrete example cameras. -/
def exName : String := "example"

/-- The example sensor of the spec's scenarios: Sensor(11.3, 7.1, 1920, 1200). -/
def exSensor : Sensor := ⟨11.3, 7.1, 1920, 1200⟩

/-- The example lens of the spec's scenarios: Lens(25, 1.8). -/
def exLens : Lens := ⟨25, 1.8⟩

/-- The example camera of the spec's scenarios. -/
def exCam : Camera := Camera.init exName exSensor exLens

/-- A camera whose 3-4-5 sensor gives a rational diagonal, so its
hyperfocal distance is an exact rational. -/
def dofSensor : Sensor := ⟨3, 4, 100, 100⟩

/-- Lens of the rational-hyperfocal camera. -/
def dofLens : Lens := ⟨10, 2⟩

/-- The rational-hyperfocal camera. -/
def dofCam : Camera := Camera.init exName dofSensor dofLens

/-! Structural lemmas about mount and focus. -/

/-- Focus leaves the pose unchanged. -/
theorem focus_pose (c : Camera) (d : ℝ) : (c.focus d).pose = c.pose := rfl

/-- Focus leaves the pitch unchanged. -/
theorem focus_pitch (c : Camera) (d : ℝ) : (c.focus d).pitch = c.pitch := rfl

/-- Focus leaves the view limits unchanged. -/
theorem focus_near_view_limit (c : Camera) (d : ℝ) :
    (c.focus d).near_view_limit = c.near_view_limit := rfl

/-- Focus leaves the view limits unchanged. -/
theorem focus_far_view_limit (c : Camera) (d : ℝ) :
    (c.focus d).far_view_limit = c.far_view_limit := rfl

/-- C1: after any mount(pitch, height) call the derived state is mutually
consistent: the stored object distance is the center-view ground distance,
the view limits are the ground distances at pitch minus and plus the
just-recomputed vertical half angle of view, and the result carries no field over from the
camera's prior derived state (it equals mount applied to a camera whose
derived fields are all zeroed). -/
theorem C1_mount_state_consistent : ∀ (c : Camera) (p h : ℝ),
    (c.mount p h).object_distance = (c.mount p h).center_view_distance ∧
    (c.mount p h).center_view_distance = groundDistanceAt h (p / 180 * Real.pi) ∧
    (c.mount p h).near_view_limit
      = groundDistanceAt h (p / 180 * Real.pi - (c.mount p h).vertical_half_aov) ∧
    (c.mount p h).far_view_limit
      = groundDistanceAt h (p / 180 * Real.pi + (c.mount p h).vertical_half_aov) ∧
    c.mount p h = (Camera.base c.name c.sensor c.lens).mount p h :=
  fun _ _ _ => ⟨rfl, rfl, rfl, rfl, rfl⟩

/-- C2: focus(d) stores hyperfocal = focal^2 / (f_number * circle_of_confusion)
+ focal, near_depth by the depth-of-field formula, and far_depth by the
formula clamped to the 1e6 mm sentinel exactly when the raw value is
negative. -/
theorem C2_focus_formulas : ∀ (c : Camera) (d : ℝ),
    (c.focus d).hyperfocal
      = c.lens.focal_mm ^ 2 / (c.lens.f_number * c.circle_of_confusion)
        + c.lens.focal_mm ∧
    (c.focus d).near_depth
      = d * ((c.focus d).hyperfocal - c.lens.focal_mm)
        / ((c.focus d).hyperfocal + d - 2 * c.lens.focal_mm) ∧
    (c.focus d).far_depth
      = if d * ((c.focus d).hyperfocal - c.lens.focal_mm) / ((c.focus d).hyperfocal - d) < 0
        then 1e6
        else d * ((c.focus d).hyperfocal - c.lens.focal_mm) / ((c.focus d).hyperfocal - d) := by
  intro c d
  refine ⟨?_, rfl, rfl⟩
  show c.lens.focal_mm ^ 2 / c.lens.f_number / c.circle_of_confusion + c.lens.focal_mm = _
  rw [div_div]

/-- C10: the constructor runs unmount() then focus(1e6): right after
construction the pitch is 0, the object distance is the 1e6 mm sentinel,
the view limits are the ones unmount computed, and the depth-of-field and
angle-of-view fields are those of a focus at the sentinel distance. -/
theorem C10_init_state : ∀ (nm : String) (s : Sensor) (l : Lens),
    (Camera.init nm s l).pitch = 0 ∧
    (Camera.init nm s l).object_distance = 1e6 ∧
    Camera.init nm s l = ((Camera.base nm s l).unmount).focus 1e6 ∧
    (Camera.init nm s l).near_view_limit = ((Camera.base nm s l).unmount).near_view_limit ∧
    (Camera.init nm s l).far_view_limit = ((Camera.base nm s l).unmount).far_view_limit ∧
    (Camera.init nm s l).near_depth = ((Camera.base nm s l).focus 1e6).near_depth ∧
    (Camera.init nm s l).far_depth = ((Camera.base nm s l).focus 1e6).far_depth ∧
    (Camera.init nm s l).vertical_half_aov
      = ((Camera.base nm s l).focus 1e6).vertical_half_aov ∧
    (Camera.init nm s l).horizontal_half_aov
      = ((Camera.base nm s l).focus 1e6).horizontal_half_aov ∧
    (Camera.init nm s l).hyperfocal = ((Camera.base nm s l).focus 1e6).hyperfocal := by
  intro nm s l
  refine ⟨?_, rfl, rfl, rfl, rfl, rfl, rfl, rfl, rfl, rfl⟩
  show (0 : ℝ) / 180 * Real.pi = 0
  norm_num

/-! Numeric bounds on sin and cos of 35 degrees (7 * pi / 36 radians),
obtained from the quartic Taylor bounds at the quarter angle and two
double-angle steps. -/

/-- Rational bounds on the quarter angle 7 * pi / 144. -/
lemma quarter_angle_bounds :
    0.1527162 < 7 * Real.pi / 144 ∧ 7 * Real.pi / 144 < 0.1527164 := by
  have h1 := Real.pi_gt_d6
  have h2 := Real.pi_lt_d6
  constructor <;> nlinarith

/-- Bounds on sin at the quarter angle. -/
lemma sin_quarter_bounds :
    0.152094 < Real.sin (7 * Real.pi / 144) ∧ Real.sin (7 * Real.pi / 144) < 0.152152 := by
  obtain ⟨hl, hu⟩ := quarter_angle_bounds
  set q : ℝ := 7 * Real.pi / 144 with hqdef
  have hq0 : (0 : ℝ) < q := by linarith
  have habs : |q| ≤ 1 := by rw [abs_of_pos hq0]; linarith
  have hb0 := Real.sin_bound habs
  rw [abs_of_pos hq0] at hb0
  have hb := abs_le.mp hb0
  have h2u : q ^ 2 < 0.0233224 := by nlinarith
  have h2l : 0.0233221 < q ^ 2 := by nlinarith
  have h3u : q ^ 3 < 0.0035618 := by nlinarith
  have h3l : 0.0035616 < q ^ 3 := by nlinarith
  have h4u : q ^ 4 < 0.000544 := by nlinarith
  exact ⟨by linarith [hb.1], by linarith [hb.2]⟩

/-- Bounds on cos at the quarter angle. -/
lemma cos_quarter_bounds :
    0.98831 < Real.cos (7 * Real.pi / 144) ∧ Real.cos (7 * Real.pi / 144) < 0.988368 := by
  obtain ⟨hl, hu⟩ := quarter_angle_bounds
  set q : ℝ := 7 * Real.pi / 144 with hqdef
  have hq0 : (0 : ℝ) < q := by linarith
  have habs : |q| ≤ 1 := by rw [abs_of_pos hq0]; linarith
  have hb0 := Real.cos_bound habs
  rw [abs_of_pos hq0] at hb0
  have hb := abs_le.mp hb0
  have h2u : q ^ 2 < 0.0233224 := by nlinarith
  have h2l : 0.0233221 < q ^ 2 := by nlinarith
  have h4u : q ^ 4 < 0.000544 := by nlinarith
  exact ⟨by linarith [hb.1], by linarith [hb.2]⟩

/-- Bounds on sin at the half angle 7 * pi / 72. -/
lemma sin_half_bounds :
    0.300632 < Real.sin (7 * Real.pi / 72) ∧ Real.sin (7 * Real.pi / 72) < 0.300765 := by
  obtain ⟨hsl, hsu⟩ := sin_quarter_bounds
  obtain ⟨hcl, hcu⟩ := cos_quarter_bounds
  have h : (7 : ℝ) * Real.pi / 72 = 2 * (7 * Real.pi / 144) := by ring
  rw [h, Real.sin_two_mul]
  constructor <;> nlinarith

/-- Bounds on cos at the half angle 7 * pi / 72. -/
lemma cos_half_bounds :
    0.953699 < Real.cos (7 * Real.pi / 72) ∧ Real.cos (7 * Real.pi / 72) < 0.953735 := by
  obtain ⟨hsl, hsu⟩ := sin_quarter_bounds
  have h : (7 : ℝ) * Real.pi / 72 = 2 * (7 * Real.pi / 144) := by ring
  have hid := Real.sin_sq_add_cos_sq (7 * Real.pi / 144)
  have h2 : Real.cos (7 * Real.pi / 72) = 1 - 2 * Real.sin (7 * Real.pi / 144) ^ 2 := by
    rw [h, Real.cos_two_mul]; linear_combination 2 * hid
  rw [h2]
  constructor <;> nlinarith

/-- Bounds on sin of 35 degrees. -/
lemma sin35_bounds :
    0.573424 < Real.sin (7 * Real.pi / 36) ∧ Real.sin (7 * Real.pi / 36) < 0.573701 := by
  obtain ⟨hsl, hsu⟩ := sin_half_bounds
  obtain ⟨hcl, hcu⟩ := cos_half_bounds
  have h : (7 : ℝ) * Real.pi / 36 = 2 * (7 * Real.pi / 72) := by ring
  rw [h, Real.sin_two_mul]
  constructor <;> nlinarith

/-- Bounds on cos of 35 degrees. -/
lemma cos35_bounds :
    0.81908 < Real.cos (7 * Real.pi / 36) ∧ Real.cos (7 * Real.pi / 36) < 0.819241 := by
  obtain ⟨hsl, hsu⟩ := sin_half_bounds
  have h : (7 : ℝ) * Real.pi / 36 = 2 * (7 * Real.pi / 72) := by ring
  have hid := Real.sin_sq_add_cos_sq (7 * Real.pi / 72)
  have h2 : Real.cos (7 * Real.pi / 36) = 1 - 2 * Real.sin (7 * Real.pi / 72) ^ 2 := by
    rw [h, Real.cos_two_mul]; linear_combination 2 * hid
  rw [h2]
  constructor <;> nlinarith

/-- Positivity of sin 35 degrees (from its lower bound). -/
lemma sin35_pos : 0 < Real.sin (7 * Real.pi / 36) := by
  linarith [sin35_bounds.1]

/-- Positivity of cos 35 degrees (from its lower bound). -/
lemma cos35_pos : 0 < Real.cos (7 * Real.pi / 36) := by
  linarith [cos35_bounds.1]

/-- The pitch of the example mount in radians. -/
lemma ex_rad : (-35 : ℝ) / 180 * Real.pi = -(7 * Real.pi / 36) := by ring

/-- The example center-view distance in closed form. -/
lemma exCvd_eq :
    (exCam.mount (-35) 1500).center_view_distance = 1500 / Real.tan (7 * Real.pi / 36) := by
  show groundDistanceAt 1500 ((-35) / 180 * Real.pi) = _
  have hcond : (-35 : ℝ) / 180 * Real.pi < -0.001 := by
    have := Real.pi_gt_three
    nlinarith
  rw [groundDistanceAt, if_pos hcond, ex_rad, neg_neg]

/-- Rational bounds on the example center-view distance. -/
lemma exCvd_bounds :
    2141.4 < (exCam.mount (-35) 1500).center_view_distance ∧
    (exCam.mount (-35) 1500).center_view_distance < 2143.1 := by
  rw [exCvd_eq, Real.tan_eq_sin_div_cos]
  obtain ⟨hsl, hsu⟩ := sin35_bounds
  obtain ⟨hcl, hcu⟩ := cos35_bounds
  have hS0 := sin35_pos
  have hC0 := cos35_pos
  rw [div_div_eq_mul_div]
  constructor
  · rw [lt_div_iff₀ hS0]; nlinarith
  · rw [div_lt_iff₀ hS0]; nlinarith

/-- C3: mount stores the pitch converted to radians and computes the
center ground distance as height / tan(-pitch) when the pitch is below
the -0.001 rad epsilon and as the 1e6 mm sentinel otherwise; for the
example mount(-35, 1500) the stored distance is 1500 / tan(35 degrees),
within 2 mm of 2141.7 mm. -/
theorem C3_mount_ground_distance : ∀ (c : Camera) (p h : ℝ),
    (c.mount p h).pitch = p / 180 * Real.pi ∧
    (c.mount p h).center_view_distance
      = (if p / 180 * Real.pi < -0.001
         then h / Real.tan (-(p / 180 * Real.pi)) else 1e6) ∧
    (exCam.mount (-35) 1500).pitch = (-35) / 180 * Real.pi ∧
    (exCam.mount (-35) 1500).center_view_distance = 1500 / Real.tan (7 * Real.pi / 36) ∧
    |(exCam.mount (-35) 1500).center_view_distance - 2141.7| < 2 := by
  intro c p h
  obtain ⟨h1, h2⟩ := exCvd_bounds
  refine ⟨rfl, rfl, rfl, exCvd_eq, ?_⟩
  rw [abs_lt]
  constructor <;> linarith

/-! Evaluation of the pose, the intrinsic matrix and the projection of
ground points for a mounted camera. -/

/-- The pose matrix after mount, as the product rotate * translate. -/
lemma mount_pose (c : Camera) (p h : ℝ) :
    (c.mount p h).pose =
      !![1, 0, 0, 0;
         0, Real.cos (p / 180 * Real.pi), Real.sin (p / 180 * Real.pi),
           Real.cos (p / 180 * Real.pi) * h;
         0, -Real.sin (p / 180 * Real.pi), Real.cos (p / 180 * Real.pi),
           -(Real.sin (p / 180 * Real.pi) * h)] := by
  show (!![1, 0, 0, 0;
           0, Real.cos (p / 180 * Real.pi), Real.sin (p / 180 * Real.pi), 0;
           0, -Real.sin (p / 180 * Real.pi), Real.cos (p / 180 * Real.pi), 0] :
        Matrix (Fin 3) (Fin 4) ℝ) *
      !![1, 0, 0, 0; 0, 1, 0, h; 0, 0, 1, 0; 0, 0, 0, 1] = _
  ext i j
  fin_cases i <;> fin_cases j <;>
    simp [Matrix.mul_apply, Fin.sum_univ_four, Matrix.vecHead, Matrix.vecTail]

/-- The intrinsic matrix after mount: focus ran at the center-view
distance, so the image distance is focal + focal^2 / (cvd - focal). -/
lemma mount_K (c : Camera) (p h : ℝ) :
    (c.mount p h).K =
      !![(c.lens.focal_mm + c.lens.focal_mm ^ 2
            / (groundDistanceAt h (p / 180 * Real.pi) - c.lens.focal_mm))
           * c.sensor.ratio_focal_x, 0, c.sensor.width_px / 2;
         0, (c.lens.focal_mm + c.lens.focal_mm ^ 2
            / (groundDistanceAt h (p / 180 * Real.pi) - c.lens.focal_mm))
           * c.sensor.ratio_focal_y, c.sensor.height_px / 2] := rfl

/-- The camera-space image of the ground point (0, 0, g, 1) for a mounted
camera. -/
lemma mount_point_camera (c : Camera) (p h g : ℝ) :
    (c.mount p h).pose * !![0; 0; g; 1] =
      !![(0 : ℝ);
         Real.sin (p / 180 * Real.pi) * g + Real.cos (p / 180 * Real.pi) * h;
         Real.cos (p / 180 * Real.pi) * g - Real.sin (p / 180 * Real.pi) * h] := by
  rw [mount_pose]
  ext i j
  fin_cases i <;> fin_cases j <;>
    simp [Matrix.mul_apply, Fin.sum_univ_four] <;> ring_nf

/-- The projected pixel row of the ground point (0, 0, g, 1) for a
mounted camera. -/
lemma mount_project_ground (c : Camera) (p h g : ℝ) :
    ((c.mount p h).project !![0; 0; g; 1]) 1 0
      = (c.lens.focal_mm + c.lens.focal_mm ^ 2
            / (groundDistanceAt h (p / 180 * Real.pi) - c.lens.focal_mm))
          * c.sensor.ratio_focal_y
          * ((Real.sin (p / 180 * Real.pi) * g + Real.cos (p / 180 * Real.pi) * h)
             / (Real.cos (p / 180 * Real.pi) * g - Real.sin (p / 180 * Real.pi) * h))
        + c.sensor.height_px / 2
          * ((Real.cos (p / 180 * Real.pi) * g - Real.sin (p / 180 * Real.pi) * h)
             / (Real.cos (p / 180 * Real.pi) * g - Real.sin (p / 180 * Real.pi) * h)) := by
  simp only [Camera.project]
  rw [mount_point_camera, mount_K]
  simp [Matrix.mul_apply, Fin.sum_univ_three, Matrix.smul_apply, smul_eq_mul,
    div_eq_mul_inv]
  ring

/-- Closed form of resolution_on_ground_per_10cm for a mounted camera:
the pixel-row drop over 100 mm of ground equals
fy * 100 * height / (z(g) * z(g + 100)), with z the camera-space depth. -/
lemma mount_res_closed (c : Camera) (p h g : ℝ)
    (hz1 : Real.cos (p / 180 * Real.pi) * g - Real.sin (p / 180 * Real.pi) * h ≠ 0)
    (hz2 : Real.cos (p / 180 * Real.pi) * (g + 100) - Real.sin (p / 180 * Real.pi) * h ≠ 0) :
    (c.mount p h).resolution_on_ground_per_10cm g
      = (c.lens.focal_mm + c.lens.focal_mm ^ 2
            / (groundDistanceAt h (p / 180 * Real.pi) - c.lens.focal_mm))
          * c.sensor.ratio_focal_y * (100 * h)
        / ((Real.cos (p / 180 * Real.pi) * g - Real.sin (p / 180 * Real.pi) * h)
           * (Real.cos (p / 180 * Real.pi) * (g + 100) - Real.sin (p / 180 * Real.pi) * h)) := by
  have hid := Real.sin_sq_add_cos_sq (p / 180 * Real.pi)
  rw [Camera.resolution_on_ground_per_10cm, mount_project_ground, mount_project_ground,
    div_self hz1, div_self hz2]
  rw [show ∀ fy cy y1 z1 y2 z2 : ℝ,
        fy * (y1 / z1) + cy * 1 - (fy * (y2 / z2) + cy * 1) = fy * (y1 / z1 - y2 / z2)
      from fun _ _ _ _ _ _ => by ring]
  rw [div_sub_div _ _ hz1 hz2]
  rw [show (Real.sin (p / 180 * Real.pi) * g + Real.cos (p / 180 * Real.pi) * h)
        * (Real.cos (p / 180 * Real.pi) * (g + 100) - Real.sin (p / 180 * Real.pi) * h)
      - (Real.cos (p / 180 * Real.pi) * g - Real.sin (p / 180 * Real.pi) * h)
        * (Real.sin (p / 180 * Real.pi) * (g + 100) + Real.cos (p / 180 * Real.pi) * h)
      = 100 * h from by linear_combination (100 * h) * hid]
  ring

/-- Bounds on the example center-view distance, stated on the ground
distance function with the pitch written as -(7 * pi / 36). -/
lemma exGround_bounds :
    2141.4 < groundDistanceAt 1500 (-(7 * Real.pi / 36)) ∧
    groundDistanceAt 1500 (-(7 * Real.pi / 36)) < 2143.1 := by
  rw [← ex_rad]
  exact exCvd_bounds

/-- C4: for the example camera after mount(-35, 1500), projecting the
homogeneous ground point (0, 0, 2141.7, 1) yields a pixel row within 2
pixels of the vertical principal point height_px / 2 = 600. -/
theorem C4_project_center_row :
    |((exCam.mount (-35) 1500).project !![0; 0; 2141.7; 1]) 1 0 - 600| < 2 := by
  obtain ⟨hSl, hSu⟩ := sin35_bounds
  obtain ⟨hCl, hCu⟩ := cos35_bounds
  have hS0 := sin35_pos
  have hC0 := cos35_pos
  obtain ⟨hgl, hgu⟩ := exGround_bounds
  rw [mount_project_ground, ex_rad, Real.sin_neg, Real.cos_neg]
  rw [show exCam.lens.focal_mm = 25 from rfl,
    show exCam.sensor.ratio_focal_y = 1200 / 7.1 from rfl,
    show exCam.sensor.height_px = 1200 from rfl]
  set S := Real.sin (7 * Real.pi / 36) with hSdef
  set C := Real.cos (7 * Real.pi / 36) with hCdef
  set cvd := groundDistanceAt 1500 (-(7 * Real.pi / 36)) with hcvddef
  have hz : (0 : ℝ) < C * 2141.7 - -S * 1500 := by nlinarith
  rw [div_self (ne_of_gt hz), mul_one]
  have hyl : (-0.076 : ℝ) < -S * 2141.7 + C * 1500 := by nlinarith
  have hyu : -S * 2141.7 + C * 1500 < (0.76 : ℝ) := by nlinarith
  have hz2614 : (2614 : ℝ) < C * 2141.7 - -S * 1500 := by nlinarith
  have hc1 : (0 : ℝ) < cvd - 25 := by linarith
  have hext_u : (25 : ℝ) ^ 2 / (cvd - 25) < 0.2954 := by
    rw [div_lt_iff₀ hc1]; nlinarith
  have hext_0 : (0 : ℝ) < 25 ^ 2 / (cvd - 25) := by positivity
  have hfy0 : (0 : ℝ) < (25 + 25 ^ 2 / (cvd - 25)) * (1200 / 7.1) := by nlinarith
  have hfyu : (25 + 25 ^ 2 / (cvd - 25)) * (1200 / 7.1) < 4276 := by nlinarith
  rw [show (25 + 25 ^ 2 / (cvd - 25)) * (1200 / 7.1)
        * ((-S * 2141.7 + C * 1500) / (C * 2141.7 - -S * 1500)) + 1200 / 2 - 600
      = (25 + 25 ^ 2 / (cvd - 25)) * (1200 / 7.1)
        * ((-S * 2141.7 + C * 1500) / (C * 2141.7 - -S * 1500)) from by ring]
  rw [abs_lt, ← mul_div_assoc]
  constructor
  · rw [lt_div_iff₀ hz]; nlinarith
  · rw [div_lt_iff₀ hz]; nlinarith

/-! Claims C5, C6, C7: error handling of project and focus, and the
depth-of-field round trip. -/

/-- The near depth stored by focus, as the code computes it. -/
lemma focus_near_depth (c : Camera) (d : ℝ) :
    (c.focus d).near_depth
      = d * ((c.focus d).hyperfocal - c.lens.focal_mm)
        / ((c.focus d).hyperfocal + d - 2 * c.lens.focal_mm) := rfl

/-- The far depth stored by focus: the raw formula clamped to 1e6 when
negative. -/
lemma focus_far_depth (c : Camera) (d : ℝ) :
    (c.focus d).far_depth
      = if d * ((c.focus d).hyperfocal - c.lens.focal_mm) / ((c.focus d).hyperfocal - d) < 0
        then 1e6
        else d * ((c.focus d).hyperfocal - c.lens.focal_mm) / ((c.focus d).hyperfocal - d) := rfl

/-- The pose of the example camera right after construction is the
identity extrinsic transform (level pitch, zero height). -/
lemma exCam_pose : exCam.pose = !![1, 0, 0, 0; 0, 1, 0, 0; 0, 0, 1, 0] := by
  have h0 : (0 : ℝ) / 180 * Real.pi = 0 := by norm_num
  show ((Camera.base exName exSensor exLens).mount 0 0).pose = _
  rw [mount_pose, h0, Real.cos_zero, Real.sin_zero]
  ext i j
  fin_cases i <;> fin_cases j <;> norm_num

/-- The world point (0, 0, 0, 1) maps to camera-space zero for the
example camera: its camera-space depth is exactly 0. -/
lemma exCam_degenerate_point :
    exCam.pose * (!![0; 0; 0; 1] : Matrix (Fin 4) (Fin 1) ℝ) = 0 := by
  rw [exCam_pose]
  ext i j
  fin_cases i <;> fin_cases j <;>
    simp [Matrix.mul_apply, Fin.sum_univ_four]

/-- C5 counterexample: at a world point of camera-space depth exactly 0
the checked projection of the spec fails with DegenerateProjection, but
the code's project raises nothing: it returns a pixel value (the zero
vector, since the degenerate division propagates). -/
theorem C5_counterexample :
    exCam.projectSpec !![0; 0; 0; 1] = Except.error CamError.DegenerateProjection ∧
    exCam.project !![0; 0; 0; 1] = 0 := by
  have hpc := exCam_degenerate_point
  constructor
  · rw [Camera.projectSpec, if_neg]
    rintro ⟨-, h2⟩
    exact h2 (by rw [hpc]; rfl)
  · simp only [Camera.project]
    rw [hpc]
    simp

/-- C5 amended: the code's project performs no homogeneous-coordinate or
depth check and never fails; the spec's checked projection returns the
code's value exactly when the fourth coordinate is 1 and the camera-space
depth is nonzero, and errs with DegenerateProjection otherwise. -/
theorem C5_project_unchecked : ∀ (c : Camera) (w : Matrix (Fin 4) (Fin 1) ℝ),
    c.projectSpec w = Except.ok (c.project w) ↔ (w 3 0 = 1 ∧ (c.pose * w) 2 0 ≠ 0) := by
  intro c w
  constructor
  · intro hok
    by_contra hc
    rw [Camera.projectSpec, if_neg hc] at hok
    exact Except.noConfusion hok
  · intro hc
    rw [Camera.projectSpec, if_pos hc]

/-- C6 counterexample: focus(10) on the example camera (focal length 25)
is below the focal length; the spec-side check rejects it, but the code
happily commits a full update: the stored object distance becomes 10 and
the lens extension the negative value -125/3. -/
theorem C6_counterexample :
    exCam.focusSpec 10 = Except.error CamError.InvalidFocusDistance ∧
    exCam.object_distance = 1e6 ∧
    (exCam.focus 10).object_distance = 10 ∧
    (exCam.focus 10).extension = -(125 / 3) := by
  refine ⟨?_, rfl, rfl, ?_⟩
  · rw [Camera.focusSpec, if_pos]
    rw [show exCam.lens.focal_mm = 25 from rfl]
    norm_num
  · show (25 : ℝ) ^ 2 / (10 - 25) = -(125 / 3)
    norm_num

/-- C6 amended: focus performs no validation.  For any distance strictly
below the focal length the spec-side check errs with
InvalidFocusDistance, while the code mutates the camera: it stores the
distance and a sign-flipped (negative) lens extension. -/
theorem C6_focus_no_validation (c : Camera) (d : ℝ)
    (hd : d < c.lens.focal_mm) (hf : 0 < c.lens.focal_mm) :
    c.focusSpec d = Except.error CamError.InvalidFocusDistance ∧
    (c.focus d).object_distance = d ∧
    (c.focus d).extension < 0 := by
  refine ⟨?_, rfl, ?_⟩
  · rw [Camera.focusSpec, if_pos (le_of_lt hd)]
  · show c.lens.focal_mm ^ 2 / (d - c.lens.focal_mm) < 0
    exact div_neg_of_pos_of_neg (by positivity) (by linarith)

/-- C6 witness: the amended statement at the example camera and d = 10. -/
theorem C6_witness :
    exCam.focusSpec 10 = Except.error CamError.InvalidFocusDistance ∧
    (exCam.focus 10).object_distance = 10 ∧
    (exCam.focus 10).extension < 0 :=
  C6_focus_no_validation exCam 10
    (by rw [show exCam.lens.focal_mm = 25 from rfl]; norm_num)
    (by rw [show exCam.lens.focal_mm = 25 from rfl]; norm_num)

/-- The 3-4-5 sensor has diagonal exactly 5 mm. -/
lemma dof_diagonal : dofSensor.diagonal_mm = 5 := by
  rw [Sensor.diagonal_mm, show dofSensor.width_mm = 3 from rfl,
    show dofSensor.height_mm = 4 from rfl,
    show (3 : ℝ) ^ 2 + 4 ^ 2 = 25 by norm_num,
    show (25 : ℝ) = 5 ^ 2 by norm_num,
    Real.sqrt_sq (by norm_num : (0 : ℝ) ≤ 5)]

/-- The rational-hyperfocal camera has hyperfocal distance 43300/3 mm. -/
lemma dof_hyperfocal (d : ℝ) : (dofCam.focus d).hyperfocal = 43300 / 3 := by
  show dofCam.lens.focal_mm ^ 2 / dofCam.lens.f_number / dofCam.circle_of_confusion
      + dofCam.lens.focal_mm = _
  rw [Camera.circle_of_confusion, Camera.equivalent_focal_mm,
    show dofCam.lens.focal_mm = 10 from rfl, show dofCam.lens.f_number = 2 from rfl,
    show dofCam.sensor.diagonal_mm = 5 from dof_diagonal]
  norm_num

/-- C7 counterexample: focusing the rational-hyperfocal camera exactly at
its hyperfocal distance divides by zero in the far-depth formula (the
Python code raises ZeroDivisionError there; the real-number model yields
far_depth = 0), so neither object_distance <= far_depth nor the sentinel
equation holds. -/
theorem C7_counterexample :
    (dofCam.focus (43300 / 3)).object_distance = 43300 / 3 ∧
    (dofCam.focus (43300 / 3)).far_depth = 0 ∧
    ¬((43300 / 3 : ℝ) ≤ (dofCam.focus (43300 / 3)).far_depth ∨
      (dofCam.focus (43300 / 3)).far_depth = 1e6) := by
  have hfar : (dofCam.focus (43300 / 3)).far_depth = 0 := by
    rw [focus_far_depth, dof_hyperfocal]
    norm_num
  refine ⟨rfl, hfar, ?_⟩
  rw [hfar]
  norm_num

/-- C7 amended: for every focus distance d strictly above the focal
length and different from the hyperfocal distance, focus(d) stores
object_distance = d exactly and, when the hyperfocal distance exceeds the
focal length, near_depth <= d and either d <= far_depth or far_depth is
the 1e6 sentinel.  (At d equal to the hyperfocal distance the code's
far-depth formula divides by zero.) -/
theorem C7_focus_roundtrip (c : Camera) (d : ℝ)
    (hf : 0 < c.lens.focal_mm) (hd : c.lens.focal_mm < d)
    (hH : c.lens.focal_mm < (c.focus d).hyperfocal)
    (hne : d ≠ (c.focus d).hyperfocal) :
    (c.focus d).object_distance = d ∧
    (c.focus d).near_depth ≤ d ∧
    (d ≤ (c.focus d).far_depth ∨ (c.focus d).far_depth = 1e6) := by
  have hd0 : 0 < d := lt_trans hf hd
  refine ⟨rfl, ?_, ?_⟩
  · rw [focus_near_depth]
    have hden : 0 < (c.focus d).hyperfocal + d - 2 * c.lens.focal_mm := by linarith
    rw [div_le_iff₀ hden]
    nlinarith
  · rw [focus_far_depth]
    rcases lt_or_gt_of_ne hne with hlt | hgt
    · left
      have hpos : 0 < (c.focus d).hyperfocal - d := by linarith
      have hraw0 : 0 ≤ d * ((c.focus d).hyperfocal - c.lens.focal_mm)
          / ((c.focus d).hyperfocal - d) :=
        div_nonneg (by nlinarith) (le_of_lt hpos)
      rw [if_neg (not_lt.mpr hraw0), le_div_iff₀ hpos]
      nlinarith
    · right
      have hneg : d * ((c.focus d).hyperfocal - c.lens.focal_mm)
          / ((c.focus d).hyperfocal - d) < 0 :=
        div_neg_of_pos_of_neg (by nlinarith) (by linarith)
      rw [if_pos hneg]

/-- C7 witness: the amended statement at the rational-hyperfocal camera
and d = 20. -/
theorem C7_witness :
    (dofCam.focus 20).object_distance = 20 ∧
    (dofCam.focus 20).near_depth ≤ 20 ∧
    (20 ≤ (dofCam.focus 20).far_depth ∨ (dofCam.focus 20).far_depth = 1e6) :=
  C7_focus_roundtrip dofCam 20
    (by rw [show dofCam.lens.focal_mm = 10 from rfl]; norm_num)
    (by rw [show dofCam.lens.focal_mm = 10 from rfl]; norm_num)
    (by rw [dof_hyperfocal, show dofCam.lens.focal_mm = 10 from rfl]; norm_num)
    (by rw [dof_hyperfocal]; norm_num)

/-! Claim C8: ground resolution. -/

/-- Ground distance for a 45-degree downward pitch: tan(pi/4) = 1, so it
equals the mount height. -/
lemma ground_neg45 (h : ℝ) : groundDistanceAt h ((-45 : ℝ) / 180 * Real.pi) = h := by
  rw [groundDistanceAt, if_pos]
  · rw [show -((-45 : ℝ) / 180 * Real.pi) = Real.pi / 4 by ring, Real.tan_pi_div_four,
      div_one]
  · have := Real.pi_gt_three
    nlinarith

/-- C8 amended: for a camera mounted with pitch in (-90, 0) degrees at
positive height, whose center-view distance exceeds the focal length (so
the image distance is positive) and whose sensor parameters are positive,
the ground resolution per 10 cm is strictly positive and strictly
decreases as the ground distance grows. -/
theorem C8_resolution_positive_decreasing (c : Camera) (p h g1 g2 : ℝ)
    (hp1 : -90 < p) (hp2 : p < 0) (hh : 0 < h)
    (hf : 0 < c.lens.focal_mm)
    (hcvd : c.lens.focal_mm < groundDistanceAt h (p / 180 * Real.pi))
    (hsm : 0 < c.sensor.height_mm) (hsp : 0 < c.sensor.height_px)
    (hg1 : 0 ≤ g1) (hg12 : g1 < g2) :
    0 < (c.mount p h).resolution_on_ground_per_10cm g2 ∧
    (c.mount p h).resolution_on_ground_per_10cm g2
      < (c.mount p h).resolution_on_ground_per_10cm g1 := by
  have hpi := Real.pi_pos
  have hR2 : p / 180 * Real.pi < 0 :=
    mul_neg_of_neg_of_pos (div_neg_of_neg_of_pos hp2 (by norm_num)) hpi
  have hR1 : -(Real.pi / 2) < p / 180 * Real.pi := by
    nlinarith [mul_pos (show (0 : ℝ) < p + 90 by linarith) hpi]
  have hs : Real.sin (p / 180 * Real.pi) < 0 :=
    Real.sin_neg_of_neg_of_neg_pi_lt hR2 (by nlinarith)
  have hc : 0 < Real.cos (p / 180 * Real.pi) :=
    Real.cos_pos_of_mem_Ioo ⟨hR1, by linarith⟩
  have hz : ∀ g : ℝ, 0 ≤ g →
      0 < Real.cos (p / 180 * Real.pi) * g - Real.sin (p / 180 * Real.pi) * h := by
    intro g hg
    have h1 : 0 ≤ Real.cos (p / 180 * Real.pi) * g := mul_nonneg (le_of_lt hc) hg
    nlinarith [mul_pos (neg_pos.mpr hs) hh]
  have hfy : 0 < (c.lens.focal_mm + c.lens.focal_mm ^ 2
      / (groundDistanceAt h (p / 180 * Real.pi) - c.lens.focal_mm))
      * c.sensor.ratio_focal_y := by
    apply mul_pos
    · have hx : 0 < c.lens.focal_mm ^ 2
          / (groundDistanceAt h (p / 180 * Real.pi) - c.lens.focal_mm) :=
        div_pos (by positivity) (by linarith)
      linarith
    · exact div_pos hsp hsm
  have hz1 := hz g1 hg1
  have hz2 := hz (g1 + 100) (by linarith)
  have hz3 := hz g2 (by linarith)
  have hz4 := hz (g2 + 100) (by linarith)
  rw [mount_res_closed c p h g1 (ne_of_gt hz1) (ne_of_gt hz2),
    mount_res_closed c p h g2 (ne_of_gt hz3) (ne_of_gt hz4)]
  have hN : 0 < (c.lens.focal_mm + c.lens.focal_mm ^ 2
      / (groundDistanceAt h (p / 180 * Real.pi) - c.lens.focal_mm))
      * c.sensor.ratio_focal_y * (100 * h) := mul_pos hfy (by linarith)
  constructor
  · exact div_pos hN (mul_pos hz3 hz4)
  · apply div_lt_div_of_pos_left hN (mul_pos hz1 hz2)
    have h13 : Real.cos (p / 180 * Real.pi) * g1 - Real.sin (p / 180 * Real.pi) * h
        < Real.cos (p / 180 * Real.pi) * g2 - Real.sin (p / 180 * Real.pi) * h := by
      nlinarith [mul_pos hc (sub_pos.mpr hg12)]
    have h24 : Real.cos (p / 180 * Real.pi) * (g1 + 100) - Real.sin (p / 180 * Real.pi) * h
        < Real.cos (p / 180 * Real.pi) * (g2 + 100) - Real.sin (p / 180 * Real.pi) * h := by
      nlinarith [mul_pos hc (sub_pos.mpr hg12)]
    exact mul_lt_mul' (le_of_lt h13) h24 (le_of_lt hz2) hz3

/-- C8 witness: the amended statement for the example camera mounted at
-45 degrees and 1500 mm, at ground distances 1000 and 2000 mm. -/
theorem C8_witness :
    0 < (exCam.mount (-45) 1500).resolution_on_ground_per_10cm 2000 ∧
    (exCam.mount (-45) 1500).resolution_on_ground_per_10cm 2000
      < (exCam.mount (-45) 1500).resolution_on_ground_per_10cm 1000 :=
  C8_resolution_positive_decreasing exCam (-45) 1500 1000 2000 (by norm_num) (by norm_num)
    (by norm_num)
    (by rw [show exCam.lens.focal_mm = 25 from rfl]; norm_num)
    (by rw [show exCam.lens.focal_mm = 25 from rfl, ground_neg45]; norm_num)
    (by rw [show exCam.sensor.height_mm = 7.1 from rfl]; norm_num)
    (by rw [show exCam.sensor.height_px = 1200 from rfl]; norm_num)
    (by norm_num) (by norm_num)

/-- C8 counterexample: the example camera mounted pitched down 45 degrees
at the positive height 10 mm has center-view distance 10 mm, below the
25 mm focal length, so the image distance is negative and the resolution
at ground distance 1000 mm (inside the 1 m - 200 m range the report
sweeps) is negative, not strictly positive. -/
theorem C8_counterexample :
    (exCam.mount (-45) 10).resolution_on_ground_per_10cm 1000 < 0 := by
  have hrad : ((-45 : ℝ)) / 180 * Real.pi = -(Real.pi / 4) := by ring
  have hsin : Real.sin ((-45 : ℝ) / 180 * Real.pi) = -(Real.sqrt 2 / 2) := by
    rw [hrad, Real.sin_neg, Real.sin_pi_div_four]
  have hcos : Real.cos ((-45 : ℝ) / 180 * Real.pi) = Real.sqrt 2 / 2 := by
    rw [hrad, Real.cos_neg, Real.cos_pi_div_four]
  have hs2 : 0 < Real.sqrt 2 := Real.sqrt_pos.mpr (by norm_num)
  have hz1 : 0 < Real.cos ((-45 : ℝ) / 180 * Real.pi) * 1000
      - Real.sin ((-45 : ℝ) / 180 * Real.pi) * 10 := by
    rw [hsin, hcos]; nlinarith
  have hz2 : 0 < Real.cos ((-45 : ℝ) / 180 * Real.pi) * (1000 + 100)
      - Real.sin ((-45 : ℝ) / 180 * Real.pi) * 10 := by
    rw [hsin, hcos]; nlinarith
  rw [mount_res_closed exCam (-45) 10 1000 (ne_of_gt hz1) (ne_of_gt hz2)]
  apply div_neg_of_neg_of_pos
  · rw [ground_neg45, show exCam.lens.focal_mm = 25 from rfl,
      show exCam.sensor.ratio_focal_y = 1200 / 7.1 from rfl]
    norm_num
  · exact mul_pos hz1 hz2

/-! Claim C9: unmount. -/

/-- The pitch stored by unmount is zero. -/
lemma unmount_pitch (c : Camera) : (c.unmount).pitch = 0 := by
  show (0 : ℝ) / 180 * Real.pi = 0
  norm_num

/-- The translation entry of the pose after unmount is zero: the mount
height is stored as 0. -/
lemma unmount_pose_height (c : Camera) : (c.unmount).pose 1 3 = 0 := by
  show (c.mount 0 0).pose 1 3 = 0
  rw [mount_pose]
  norm_num

/-- The vertical half angle of view after mount, in closed form. -/
lemma mount_vhalf (c : Camera) (p h : ℝ) :
    (c.mount p h).vertical_half_aov
      = Real.arctan (c.sensor.height_mm / 2
          / (c.lens.focal_mm + c.lens.focal_mm ^ 2
             / (groundDistanceAt h (p / 180 * Real.pi) - c.lens.focal_mm))) := rfl

/-- At level pitch the ground distance is the 1e6 sentinel. -/
lemma groundDistanceAt_level (h : ℝ) : groundDistanceAt h ((0 : ℝ) / 180 * Real.pi) = 1e6 := by
  rw [groundDistanceAt, if_neg]
  rw [show (0 : ℝ) / 180 * Real.pi = 0 by norm_num]
  norm_num

/-- The vertical half angle of view of the unmounted example camera
exceeds the 0.001 rad epsilon. -/
lemma exU_vhalf_gt : 0.001 < (exCam.unmount).vertical_half_aov := by
  have hpi := Real.pi_gt_three
  show (0.001 : ℝ) < (exCam.mount 0 0).vertical_half_aov
  rw [mount_vhalf, groundDistanceAt_level,
    show exCam.sensor.height_mm = 7.1 from rfl, show exCam.lens.focal_mm = 25 from rfl]
  have harg : (0.1 : ℝ) < 7.1 / 2 / (25 + 25 ^ 2 / (1e6 - 25)) := by norm_num
  have hsin : Real.sin 0.001 < 0.001 := Real.sin_lt (by norm_num)
  have habs : |(0.001 : ℝ)| ≤ 1 := by rw [abs_of_pos (by norm_num : (0 : ℝ) < 0.001)]; norm_num
  have hcosb := abs_le.mp (Real.cos_bound habs)
  have hcos : (0.9 : ℝ) < Real.cos 0.001 := by
    rw [abs_of_pos (by norm_num : (0 : ℝ) < 0.001)] at hcosb
    have := hcosb.1
    norm_num at this ⊢
    linarith
  have htan : Real.tan 0.001 < 0.0012 := by
    rw [Real.tan_eq_sin_div_cos, div_lt_iff₀ (by linarith)]
    nlinarith
  have h1 : Real.arctan (Real.tan 0.001) = 0.001 :=
    Real.arctan_tan (by nlinarith) (by nlinarith)
  calc (0.001 : ℝ) = Real.arctan (Real.tan 0.001) := h1.symm
    _ < Real.arctan (7.1 / 2 / (25 + 25 ^ 2 / (1e6 - 25))) := by
        apply Real.arctan_strictMono
        linarith

/-- The near view limit of the unmounted example camera: the near ray
points down by the half angle of view, so with the camera at height 0 the
ground intersection is at distance 0. -/
lemma exU_near : (exCam.unmount).near_view_limit = 0 := by
  have hv := exU_vhalf_gt
  have h0 : (exCam.unmount).near_view_limit
      = groundDistanceAt 0 ((0 : ℝ) / 180 * Real.pi - (exCam.unmount).vertical_half_aov) := rfl
  rw [h0, groundDistanceAt, if_pos]
  · exact zero_div _
  · rw [show (0 : ℝ) / 180 * Real.pi = 0 by norm_num]
    linarith

/-- The far view limit of the unmounted example camera is the sentinel:
the far ray points upward. -/
lemma exU_far : (exCam.unmount).far_view_limit = 1e6 := by
  have hv := exU_vhalf_gt
  have h0 : (exCam.unmount).far_view_limit
      = groundDistanceAt 0 ((0 : ℝ) / 180 * Real.pi + (exCam.unmount).vertical_half_aov) := rfl
  rw [h0, groundDistanceAt, if_neg]
  rw [show (0 : ℝ) / 180 * Real.pi = 0 by norm_num]
  intro hlt
  linarith

/-- C9 counterexample: after unmount() the example camera's near view
limit is 0, not the 1e6 mm sentinel: with the camera at height 0 the
downward-looking near ray meets the ground immediately. -/
theorem C9_counterexample :
    (exCam.unmount).near_view_limit = 0 ∧ (exCam.unmount).near_view_limit ≠ 1e6 := by
  refine ⟨exU_near, ?_⟩
  rw [exU_near]
  norm_num

/-- C9 amended: unmount() is mount(0, 0); afterwards the stored pitch is
0 and the pose's translation entry is 0, and for the example camera the
far view limit is the 1e6 sentinel while the near view limit is 0. -/
theorem C9_unmount_state : ∀ c : Camera,
    c.unmount = c.mount 0 0 ∧
    (c.unmount).pitch = 0 ∧
    (c.unmount).pose 1 3 = 0 ∧
    (exCam.unmount).far_view_limit = 1e6 ∧
    (exCam.unmount).near_view_limit = 0 :=
  fun c => ⟨rfl, unmount_pitch c, unmount_pose_height c, exU_far, exU_near⟩

end

end CamSel
